import Mathlib

/-!
Verification development for the OneTool repository.

The core of the repository is the Network Inventory & Remote-Operation
Orchestrator.  Two Python classes are embedded here:

* `GeminiNetworkOS` from `src/onetool/interactive-gemini-network-controller.py`
  (machine registry, reachability prober, operation dispatcher, history
  store, two-pass generation orchestrator), and
* `NetworkController` from `src/onetool/network-controller-poc.py`
  (remote command executor with lazy SSH sessions).

External effects (subprocess ping, socket port probes, SSH, the Gemini
image / text collaborators, the local clock) are modelled as oracle
functions collected in an environment record.  Each external call consumes
one tick of a logical clock carried in the state, so oracles may give
different answers to successive calls, as the real world can.  Exceptions
raised by external calls are oracle outcomes; a Python `except` branch
becomes the corresponding `match` arm.  Fallible Python functions return
sum types; where the Python code can itself raise to its caller, the
embedded result type has an explicit `raised` constructor.
-/

/-- First-match lookup in an association list; models Python dict lookup
(`d[k]` / `k in d`).  Python dicts never hold duplicate keys, and the
embedded code never inserts a duplicate name, so first-match agrees with
dict semantics while keeping insertion order. -/
def assocLookup {α : Type} (l : List (String × α)) (k : String) : Option α :=
  match l with
  | [] => none
  | (k₀, v) :: rest => if k₀ = k then some v else assocLookup rest k

/-- Assignment `d[k] = v` on an insertion-ordered association list: replaces the first
binding of `k` in place, or appends a new binding (Python dict assignment). -/
def assocSet {α : Type} (l : List (String × α)) (k : String) (v : α) : List (String × α) :=
  match l with
  | [] => [(k, v)]
  | (k₀, v₀) :: rest => if k₀ = k then (k, v) :: rest else (k₀, v₀) :: assocSet rest k v

/-- Contiguous-sublist test on character lists, used to model the Python
substring operator `needle in hay`. -/
def charInfix (needle : List Char) : List Char → Bool
  | [] => needle.isEmpty
  | c :: rest => needle.isPrefixOf (c :: rest) || charInfix needle rest

/-- Python `needle in hay` on strings. -/
def strContains (hay needle : String) : Bool :=
  charInfix needle.data hay.data

/-- Python `s.lower()` (ASCII case folding suffices for the fixed keyword
table and machine names used by the code). -/
def lowerString (s : String) : String :=
  String.mk (s.data.map Char.toLower)

/-- Python slice `l[-n:]`: the last `n` elements (all of them when the list
is shorter than `n`). -/
def lastN {α : Type} (n : Nat) (l : List α) : List α :=
  l.drop (l.length - n)

/-- Python rendering of an optional value inside an f-string: `None` for
missing values, the string itself otherwise. -/
def pyStrOpt : Option String → String
  | some s => s
  | none => "None"

/-- Python truthiness of an optional string (`if s:`): false for `None`
and for the empty string. -/
def truthyOptStr : Option String → Bool
  | some s => !(s == "")
  | none => false

/-- Outcome of one `subprocess.run(["ping", ...], timeout=2)` call:
completed with a return code and captured streams, timed out
(`subprocess.TimeoutExpired`), or raised some other exception. -/
inductive SubprocOutcome where
  | completed (returncode : Int) (stdout stderr : String)
  | timedOut
  | raised (msg : String)
deriving DecidableEq

/-- Return value of `GeminiNetworkOS.ping_machine`. -/
structure PingResult where
  success : Bool
  output : Option String
  error : Option String
deriving DecidableEq

/-- Outcome of the SSH block inside `get_real_machine_info`: either the
four captured command outputs, or an exception raised anywhere in the
connect/exec sequence. -/
inductive SSHInfoOutcome where
  | ok (diskInfo processes systemInfo memoryInfo : String)
  | exn (msg : String)
deriving DecidableEq

/-- The nested `real_info` dictionary stored on a machine after a
successful `get_real_machine_info`. -/
structure RealInfo where
  diskInfo : String
  processes : String
  systemInfo : String
  memoryInfo : String
deriving DecidableEq

/-- Return value of `get_real_machine_info`: the machine-not-found error
dictionary, the success dictionary, or the caught-exception dictionary. -/
inductive RealInfoResult where
  | notFound (msg : String)
  | ok (diskInfo processes systemInfo memoryInfo : String)
  | failed (err : String)
deriving DecidableEq

/-- One entry of `GeminiNetworkOS.machines`.  Keys that Python adds only
later (`last_checked`, `open_ports`, `real_info`) are `Option` fields. -/
structure Machine where
  ip : String
  username : String
  password : String
  status : String
  services : List String
  os : String
  description : String
  lastChecked : Option String
  openPorts : Option (List (Nat × String))
  realInfo : Option RealInfo
deriving DecidableEq

/-- The local-system info dictionary built once in `__init__`. -/
structure SystemInfo where
  os : String
  hostname : String
  ip : String
  python : String
  time : String
deriving DecidableEq

/-- The `data` payload of an operation record.  The `overview` payload
models the Python dict comprehension `{name: data for name, data in
self.machines.items()}`: the key list is fixed at append time but the
values are the live machine dictionaries, so the payload stores the names
and is resolved against the current registry when observed
(see `observedOverviewStatuses`).  The `topology` payload keeps the
status and address fields that vary; the surrounding node/edge literals
are fixed text. -/
inductive OpData where
  | text (s : String)
  | ports (ps : List (Nat × String))
  | overview (names : List String)
  | topology (serverStatus laptopStatus controllerIp : String)
deriving DecidableEq

/-- A record produced by `execute_operation`. -/
structure OperationRecord where
  operation : String
  target : Option String
  timestamp : String
  success : Bool
  data : Option OpData
  error : Option String
deriving DecidableEq

/-- One element of `operations_history`.  `execute_operation` appends an
`OperationRecord`; `check_all_machines` appends a differently-shaped
dictionary with keys `operation="check_status"`, `target`, `timestamp`
and `result`. -/
inductive HistoryEntry where
  | op (r : OperationRecord)
  | checkStatus (target : String) (timestamp : String) (result : String)
deriving DecidableEq

/-- The operation-name keyword of a history entry. -/
def entryOp : HistoryEntry → String
  | HistoryEntry.op r => r.operation
  | HistoryEntry.checkStatus _ _ _ => "check_status"

/-- The machine snapshot placed into the network-info structure by
`generate_interface` (lines 523-538): scalar fields are copied by value,
with the `.get` defaults of the source. -/
structure MachineView where
  ip : String
  status : String
  os : String
  description : String
  services : List String
  lastChecked : String
  openPorts : Option (List (Nat × String))
  realInfo : Option RealInfo
deriving DecidableEq

/-- The `network_info` dictionary embedded in each generation prompt. -/
structure NetworkInfo where
  machines : List (String × MachineView)
  systemInfo : SystemInfo
  operationsHistory : List HistoryEntry
  availableOperations : List String
deriving DecidableEq

/-- One element of `prompt_history`.  Original-prompt entries carry the
network-info snapshot; refinement entries instead carry back-references
to the original prompt and image. -/
structure PromptRecord where
  userQuery : Option String
  prompt : Option String
  timestamp : String
  networkInfo : Option NetworkInfo
  originalPrompt : Option String
  originalImage : Option String
deriving DecidableEq

/-- One element of `conversation_history`. -/
structure ConvEntry where
  query : Option String
  timestamp : String
  imagePath : String
  originalImagePath : Option String
  comparisonPath : Option String
deriving DecidableEq

/-- Outcome of one streamed image-generation call: the first chunk holding
inline image bytes, a stream with no image content, or an exception. -/
inductive ImageOutcome where
  | image (bytes : List Nat)
  | noImage
  | exn (msg : String)
deriving DecidableEq

/-- Outcome of one text-completion call inside `refine_image_prompt`:
`response.text` (which the client may report as `None`), or an
exception. -/
inductive TextOutcome where
  | text (s : Option String)
  | exn (msg : String)
deriving DecidableEq

/-- The external world of `GeminiNetworkOS`.  All oracles take the logical
clock tick of the call, so repeated calls may observe different answers. -/
structure Env where
  now : Nat → String
  probe : Nat → String → Nat → SubprocOutcome
  portOpen : Nat → String → Nat → Bool
  sshInfo : Nat → String → SSHInfoOutcome
  systemInfo : SystemInfo
  imageGen : Nat → String → ImageOutcome
  readImage : Nat → String → Except String (List Nat)
  textGen : Nat → String → TextOutcome
  compareImages : Nat → String → String → Option String

/-- The mutable state of a `GeminiNetworkOS` instance. -/
structure OSState where
  machines : List (String × Machine)
  operationsHistory : List HistoryEntry
  promptHistory : List PromptRecord
  conversationHistory : List ConvEntry
  imgCount : Nat
  clock : Nat
deriving DecidableEq

/-- The two machines seeded in `__init__`. -/
def initialMachines : List (String × Machine) :=
  [("headless-server",
    { ip := "192.168.1.53", username := "aath", password := "a",
      status := "unknown",
      services := ["SSH", "File Storage", "Web Server"],
      os := "Ubuntu 22.04",
      description := "Headless server for backend processing",
      lastChecked := none, openPorts := none, realInfo := none }),
   ("laptop",
    { ip := "192.168.1.227", username := "ath", password := "a",
      status := "unknown",
      services := ["SSH", "Development Environment"],
      os := "Ubuntu 22.04",
      description := "Main development laptop",
      lastChecked := none, openPorts := none, realInfo := none })]

/-- The fixed operation catalog `available_operations`. -/
def availableOperations : List String :=
  ["ping", "port scan", "check disk space", "list processes",
   "system overview", "network topology"]

/-- The state of a freshly constructed `GeminiNetworkOS`. -/
def initState : OSState :=
  { machines := initialMachines, operationsHistory := [],
    promptHistory := [], conversationHistory := [],
    imgCount := 0, clock := 0 }

/-- The per-attempt timeout (seconds) passed to `subprocess.run` by
`ping_machine`. -/
def pingTimeoutSeconds : Nat := 2

/-- Models `GeminiNetworkOS.ping_machine` (lines 138-157): one bounded-timeout
ping attempt; every exception path is caught and converted to a failure
result with an explicit error value. -/
def ping_machine (env : Env) (clock : Nat) (ip : String) : PingResult :=
  match env.probe clock ip pingTimeoutSeconds with
  | SubprocOutcome.completed rc out err =>
    { success := rc == 0, output := some out,
      error := if rc != 0 then some err else none }
  | SubprocOutcome.timedOut =>
    { success := false, output := none, error := some "Timeout while pinging" }
  | SubprocOutcome.raised e =>
    { success := false, output := none, error := some e }

/-- The fixed candidate port list scanned by `scan_ports`. -/
def scanPortList : List Nat := [22, 80, 443, 8080, 3306, 5432]

/-- The `common_services` table of `scan_ports`. -/
def commonServiceName (p : Nat) : String :=
  if p = 22 then "SSH"
  else if p = 80 then "HTTP"
  else if p = 443 then "HTTPS"
  else if p = 21 then "FTP"
  else if p = 25 then "SMTP"
  else if p = 53 then "DNS"
  else if p = 3306 then "MySQL"
  else if p = 5432 then "PostgreSQL"
  else if p = 8080 then "HTTP-ALT"
  else if p = 27017 then "MongoDB"
  else "Unknown"

/-- Models `GeminiNetworkOS.scan_ports`: best-effort discovery; a port appears in
the result iff its short-timeout connection attempt succeeds. -/
def scan_ports (env : Env) (clock : Nat) (ip : String) : List (Nat × String) :=
  scanPortList.filterMap (fun p =>
    if env.portOpen clock ip p then some (p, commonServiceName p) else none)

/-- Models `GeminiNetworkOS.get_real_machine_info`: looks up the machine, then
runs the fixed diagnostic commands over SSH, catching every exception. -/
def get_real_machine_info (env : Env) (clock : Nat)
    (machines : List (String × Machine)) (name : String) : RealInfoResult :=
  match assocLookup machines name with
  | none => RealInfoResult.notFound ("Machine \x27" ++ name ++ "\x27 not found")
  | some m =>
    match env.sshInfo clock m.ip with
    | SSHInfoOutcome.ok d p s mem => RealInfoResult.ok d p s mem
    | SSHInfoOutcome.exn e => RealInfoResult.failed e

/-- The body of the `check_all_machines` loop over the registry, returning
the updated machine list, the `check_status` entries appended, and the
advanced clock.  Each ping consumes a tick; on a reachable machine the
port scan and the SSH info collection consume one tick each. -/
def check_machines_go (env : Env) (clock : Nat) :
    List (String × Machine) → List (String × Machine) × List HistoryEntry × Nat
  | [] => ([], [], clock)
  | (name, m) :: rest =>
    let ping := ping_machine env clock m.ip
    let c1 := clock + 1
    let m1 := { m with status := if ping.success then "online" else "offline",
                       lastChecked := some (env.now c1) }
    let entry := HistoryEntry.checkStatus name (env.now c1)
      (if ping.success then "success" else "failed")
    if ping.success then
      let m2 := { m1 with openPorts := some (scan_ports env c1 m.ip) }
      let c2 := c1 + 1
      let m3 :=
        match env.sshInfo c2 m.ip with
        | SSHInfoOutcome.ok d p s mem =>
          { m2 with realInfo := some { diskInfo := d, processes := p,
                                       systemInfo := s, memoryInfo := mem } }
        | SSHInfoOutcome.exn _ => m2
      let c3 := c2 + 1
      let res := check_machines_go env c3 rest
      ((name, m3) :: res.1, entry :: res.2.1, res.2.2)
    else
      let res := check_machines_go env c1 rest
      ((name, m1) :: res.1, entry :: res.2.1, res.2.2)

/-- Models `GeminiNetworkOS.check_all_machines` (lines 237-261): probe every
registry machine in order, update status / last-checked / open ports /
real info in place, and append one `check_status` entry per machine. -/
def check_all_machines (env : Env) (st : OSState) : OSState :=
  let res := check_machines_go env st.clock st.machines
  { st with machines := res.1,
            operationsHistory := st.operationsHistory ++ res.2.1,
            clock := res.2.2 }

/-- Everything `execute_operation` computes before the final history
append: the record, any entries appended by a nested `check_all_machines`,
and the updated registry and clock. -/
structure OpOutcome where
  record : OperationRecord
  extraEntries : List HistoryEntry
  machines : List (String × Machine)
  clock : Nat

/-- The "machine not found" record shared by the targeted operations. -/
def notFoundRecord (operation : String) (target : Option String) (ts : String) :
    OperationRecord :=
  { operation := operation, target := target, timestamp := ts, success := false,
    data := none,
    error := some ("Machine \x27" ++ pyStrOpt target ++ "\x27 not found in inventory") }

/-- The branch logic of `execute_operation` (lines 263-343).  The `try`
block catches every exception; the only statement in it that can raise is
the topology data construction, whose `KeyError` leaves `success` already
set to `True` with `data` unassigned. -/
def execute_operation_core (env : Env) (st : OSState)
    (operation : String) (target : Option String) : OpOutcome :=
  let ts := env.now st.clock
  if operation = "ping" then
    match target.bind (assocLookup st.machines) with
    | some m =>
      let pr := ping_machine env st.clock m.ip
      { record := { operation := operation, target := target, timestamp := ts,
                    success := pr.success, data := pr.output.map OpData.text,
                    error := pr.error },
        extraEntries := [], machines := st.machines, clock := st.clock + 1 }
    | none =>
      { record := notFoundRecord operation target ts,
        extraEntries := [], machines := st.machines, clock := st.clock }
  else if operation = "port scan" then
    match target.bind (assocLookup st.machines) with
    | some m =>
      { record := { operation := operation, target := target, timestamp := ts,
                    success := true,
                    data := some (OpData.ports (scan_ports env st.clock m.ip)),
                    error := none },
        extraEntries := [], machines := st.machines, clock := st.clock + 1 }
    | none =>
      { record := notFoundRecord operation target ts,
        extraEntries := [], machines := st.machines, clock := st.clock }
  else if operation = "check disk space" then
    match target.bind (assocLookup st.machines) with
    | some _ =>
      match get_real_machine_info env st.clock st.machines (pyStrOpt target) with
      | RealInfoResult.ok d _ _ _ =>
        { record := { operation := operation, target := target, timestamp := ts,
                      success := true, data := some (OpData.text d), error := none },
          extraEntries := [], machines := st.machines, clock := st.clock + 1 }
      | RealInfoResult.failed e =>
        { record := { operation := operation, target := target, timestamp := ts,
                      success := false, data := none, error := some e },
          extraEntries := [], machines := st.machines, clock := st.clock + 1 }
      | RealInfoResult.notFound msg =>
        { record := { operation := operation, target := target, timestamp := ts,
                      success := false, data := none, error := some msg },
          extraEntries := [], machines := st.machines, clock := st.clock + 1 }
    | none =>
      { record := notFoundRecord operation target ts,
        extraEntries := [], machines := st.machines, clock := st.clock }
  else if operation = "list processes" then
    match target.bind (assocLookup st.machines) with
    | some _ =>
      match get_real_machine_info env st.clock st.machines (pyStrOpt target) with
      | RealInfoResult.ok _ p _ _ =>
        { record := { operation := operation, target := target, timestamp := ts,
                      success := true, data := some (OpData.text p), error := none },
          extraEntries := [], machines := st.machines, clock := st.clock + 1 }
      | RealInfoResult.failed e =>
        { record := { operation := operation, target := target, timestamp := ts,
                      success := false, data := none, error := some e },
          extraEntries := [], machines := st.machines, clock := st.clock + 1 }
      | RealInfoResult.notFound msg =>
        { record := { operation := operation, target := target, timestamp := ts,
                      success := false, data := none, error := some msg },
          extraEntries := [], machines := st.machines, clock := st.clock + 1 }
    | none =>
      { record := notFoundRecord operation target ts,
        extraEntries := [], machines := st.machines, clock := st.clock }
  else if operation = "system overview" then
    let res := check_machines_go env st.clock st.machines
    { record := { operation := operation, target := target, timestamp := ts,
                  success := true,
                  data := some (OpData.overview (res.1.map Prod.fst)),
                  error := none },
      extraEntries := res.2.1, machines := res.1, clock := res.2.2 }
  else if operation = "network topology" then
    let res := check_machines_go env st.clock st.machines
    match assocLookup res.1 "headless-server" with
    | none =>
      { record := { operation := operation, target := target, timestamp := ts,
                    success := true, data := none,
                    error := some "\x27headless-server\x27" },
        extraEntries := res.2.1, machines := res.1, clock := res.2.2 }
    | some hs =>
      match assocLookup res.1 "laptop" with
      | none =>
        { record := { operation := operation, target := target, timestamp := ts,
                      success := true, data := none,
                      error := some "\x27laptop\x27" },
          extraEntries := res.2.1, machines := res.1, clock := res.2.2 }
      | some lp =>
        { record := { operation := operation, target := target, timestamp := ts,
                      success := true,
                      data := some (OpData.topology hs.status lp.status env.systemInfo.ip),
                      error := none },
          extraEntries := res.2.1, machines := res.1, clock := res.2.2 }
  else
    { record := { operation := operation, target := target, timestamp := ts,
                  success := false, data := none,
                  error := some ("Unknown operation: " ++ operation) },
      extraEntries := [], machines := st.machines, clock := st.clock }

/-- Models `GeminiNetworkOS.execute_operation`: run the branch logic, then append
the resulting record to the operations history (line 346) and return it.
Any entries appended by a nested `check_all_machines` precede the record,
exactly as the Python appends do. -/
def execute_operation (env : Env) (st : OSState)
    (operation : String) (target : Option String) : OperationRecord × OSState :=
  let o := execute_operation_core env st operation target
  (o.record,
   { st with machines := o.machines, clock := o.clock,
             operationsHistory :=
               st.operationsHistory ++ o.extraEntries ++ [HistoryEntry.op o.record] })

/-- The machine names whose name occurs in the lowered query, in registry
(insertion) order.  The Python loop `for machine in self.machines: if
machine in user_query.lower(): ...` visits exactly these names in this
order; precomputing the list is sound because none of the dispatched
operations adds, removes or renames a registry entry. -/
def matched_machines (st : OSState) (ql : String) : List String :=
  (st.machines.map Prod.fst).filter (fun n => strContains ql n)

/-- Dispatch one operation per name, left to right, threading the state. -/
def dispatch_each (env : Env) (operation : String) :
    OSState → List String → OSState
  | st, [] => st
  | st, n :: rest =>
    dispatch_each env operation (execute_operation env st operation (some n)).2 rest

/-- The free-text front-end of `generate_interface` (lines 492-517): a
fixed if/elif keyword chain; only the first category whose guard holds
dispatches, once per matching machine name where a target is needed. -/
def process_user_query (env : Env) (st : OSState) (q : String) : OSState :=
  let ql := lowerString q
  let hasMachine := st.machines.any (fun p => strContains ql p.1)
  if strContains ql "ping" && hasMachine then
    dispatch_each env "ping" st (matched_machines st ql)
  else if strContains ql "scan" && hasMachine then
    dispatch_each env "port scan" st (matched_machines st ql)
  else if strContains ql "disk" && hasMachine then
    dispatch_each env "check disk space" st (matched_machines st ql)
  else if strContains ql "process" && hasMachine then
    dispatch_each env "list processes" st (matched_machines st ql)
  else if strContains ql "overview" || strContains ql "status" then
    (execute_operation env st "system overview" none).2
  else if strContains ql "topology" || strContains ql "network map" then
    (execute_operation env st "network topology" none).2
  else st

/-- The machine snapshot built at lines 523-538. -/
def build_machine_view (m : Machine) : MachineView :=
  { ip := m.ip, status := m.status, os := m.os, description := m.description,
    services := m.services,
    lastChecked := match m.lastChecked with | some s => s | none => "",
    openPorts := m.openPorts, realInfo := m.realInfo }

/-- The `network_info` dictionary built at lines 541-546 (machine views,
local system info, the last five operation entries, and the catalog). -/
def build_network_info (env : Env) (st : OSState) : NetworkInfo :=
  { machines := st.machines.map (fun p => (p.1, build_machine_view p.2)),
    systemInfo := env.systemInfo,
    operationsHistory := lastN 5 st.operationsHistory,
    availableOperations := availableOperations }

/-- Models Python rendering a machine view inside `str(network_info)`.
The exact textual layout of `str()` on a dict is irrelevant to every
control-flow decision in the code; the rendering keeps the identifying
fields. -/
def renderMachineView (p : String × MachineView) : String :=
  p.1 ++ ": " ++ p.2.ip ++ " " ++ p.2.status ++ " " ++ p.2.os

/-- Models `str(network_info)` as used inside the prompt f-string. -/
def renderNetworkInfo (ni : NetworkInfo) : String :=
  String.intercalate "; " (ni.machines.map renderMachineView)
    ++ " | host " ++ ni.systemInfo.hostname ++ " " ++ ni.systemInfo.ip
    ++ " | recent ops " ++ toString ni.operationsHistory.length
    ++ " | " ++ String.intercalate ", " ni.availableOperations

/-- The simplified prompt f-string of line 549. -/
def simplified_prompt (ni : NetworkInfo) : String :=
  "generate a computer monitor with the following text on it " ++ renderNetworkInfo ni

/-- The query-processing stage of `generate_interface` (lines 492-517):
a falsy query (absent or empty) dispatches nothing. -/
def gi_stage1 (env : Env) (st : OSState) (q : Option String) : OSState :=
  match q with
  | some s => if s == "" then st else process_user_query env st s
  | none => st

/-- The `PromptRecord` appended by `generate_interface` (lines 561-566),
computed from the state after the query dispatch and the probe cycle. -/
def gi_record (env : Env) (st : OSState) (q : Option String) : PromptRecord :=
  let st2 := check_all_machines env (gi_stage1 env st q)
  let ni := build_network_info env st2
  { userQuery := q, prompt := some (simplified_prompt ni),
    timestamp := env.now st2.clock, networkInfo := some ni,
    originalPrompt := none, originalImage := none }

/-- Models `GeminiNetworkOS.generate_interface` (lines 489-632): process the
free-text query, probe all machines, append a `PromptRecord`, then attempt
one image generation; every exception is caught and returned as
`(None, detail)`. -/
def generate_interface (env : Env) (st : OSState) (q : Option String) :
    (Option (List Nat) × String) × OSState :=
  let st2 := check_all_machines env (gi_stage1 env st q)
  let prompt := simplified_prompt (build_network_info env st2)
  let st3 := { st2 with promptHistory := st2.promptHistory ++ [gi_record env st q] }
  match env.imageGen st3.clock prompt with
  | ImageOutcome.image b =>
    let path := "network_os_" ++ toString st3.imgCount ++ ".png"
    ((some b, path),
     { st3 with clock := st3.clock + 1, imgCount := st3.imgCount + 1,
                conversationHistory := st3.conversationHistory ++
                  [{ query := q, timestamp := env.now st3.clock, imagePath := path,
                     originalImagePath := none, comparisonPath := none }] })
  | ImageOutcome.noImage =>
    ((none, "No image was generated. The model may not have produced image content."),
     { st3 with clock := st3.clock + 1 })
  | ImageOutcome.exn msg =>
    ((none, msg), { st3 with clock := st3.clock + 1 })

/-- The refinement request f-string of lines 645-662 (condensed to its
variable parts; the fixed instruction text never influences control
flow). -/
def build_refinement_prompt (originalPrompt : Option String) (q : Option String) :
    String :=
  "I\x27m using Gemini to generate network management interface visualizations. "
    ++ "Here\x27s my original prompt: \"" ++ pyStrOpt originalPrompt
    ++ "\" This prompt was based on a user query: \"" ++ pyStrOpt q
    ++ "\" Please provide a completely rewritten prompt that I can use with "
    ++ "the image generation model."

/-- Models `GeminiNetworkOS.refine_image_prompt` (lines 634-719): read the draft
image back, ask the text collaborator for a rewritten prompt, append a
refinement `PromptRecord` carrying back-references, and return the
rewritten prompt; any exception is caught and `None` is returned with no
record appended.  A response whose `text` is `None` still appends a
record (with a `None` prompt) before `None` is returned. -/
def refine_image_prompt (env : Env) (st : OSState) (originalPrompt : Option String)
    (imagePath : String) (q : Option String) : Option String × OSState :=
  match env.readImage st.clock imagePath with
  | Except.error _ => (none, { st with clock := st.clock + 1 })
  | Except.ok _ =>
    match env.textGen (st.clock + 1) (build_refinement_prompt originalPrompt q) with
    | TextOutcome.exn _ => (none, { st with clock := st.clock + 2 })
    | TextOutcome.text s =>
      let pr : PromptRecord :=
        { userQuery := some ("Refined prompt for: " ++ pyStrOpt q),
          prompt := s, timestamp := env.now (st.clock + 2), networkInfo := none,
          originalPrompt := originalPrompt, originalImage := some imagePath }
      (s, { st with clock := st.clock + 2,
                    promptHistory := st.promptHistory ++ [pr] })

/-- The prompt of the latest `prompt_history` entry
(`self.prompt_history[-1]["prompt"]`). -/
def last_prompt (st : OSState) : Option String :=
  match st.promptHistory.getLast? with
  | some r => r.prompt
  | none => none

/-- Models `GeminiNetworkOS.generate_interface_with_refined_prompt`
(lines 721-821): run the draft pass; on a falsy draft artifact report
failure; otherwise attempt the refinement pass and, when it yields a
truthy rewritten prompt, one refined generation plus a comparison
artifact.  Every refinement-side failure falls back to returning the
draft artifact unchanged.  (The prompt-comparison text file written on
the success path is plain output with no effect on state.) -/
def generate_interface_with_refined_prompt (env : Env) (st : OSState)
    (q : Option String) : (Option (List Nat) × String) × OSState :=
  let d := generate_interface env st q
  match d.1.1 with
  | none => ((none, "Failed to generate initial image"), d.2)
  | some b =>
    if b.isEmpty then ((none, "Failed to generate initial image"), d.2)
    else
      let originalPrompt := last_prompt d.2
      let rf := refine_image_prompt env d.2 originalPrompt d.1.2 q
      if truthyOptStr rf.1 = false then ((some b, d.1.2), rf.2)
      else
        let refined := pyStrOpt rf.1
        match env.imageGen rf.2.clock refined with
        | ImageOutcome.image rb =>
          let rpath := "refined_network_os_" ++ toString rf.2.imgCount ++ ".png"
          let st4 := { rf.2 with clock := rf.2.clock + 1,
                                 imgCount := rf.2.imgCount + 1 }
          let cpath := env.compareImages st4.clock d.1.2 rpath
          ((some rb, rpath),
           { st4 with clock := st4.clock + 1,
                      conversationHistory := st4.conversationHistory ++
                        [{ query := some ("Refined image for: " ++ pyStrOpt q),
                           timestamp := env.now (st4.clock + 1), imagePath := rpath,
                           originalImagePath := some d.1.2,
                           comparisonPath := cpath }] })
        | ImageOutcome.noImage =>
          ((some b, d.1.2), { rf.2 with clock := rf.2.clock + 1 })
        | ImageOutcome.exn _ =>
          ((some b, d.1.2), { rf.2 with clock := rf.2.clock + 1 })

/-- One public call on a `GeminiNetworkOS` instance, for stating
whole-run invariants. -/
inductive Step where
  | dispatch (operation : String) (target : Option String)
  | genInterface (q : Option String)
  | genRefined (q : Option String)

/-- Run a sequence of public calls from a state. -/
def run_steps (env : Env) : OSState → List Step → OSState
  | st, [] => st
  | st, Step.dispatch op t :: rest =>
    run_steps env (execute_operation env st op t).2 rest
  | st, Step.genInterface q :: rest =>
    run_steps env (generate_interface env st q).2 rest
  | st, Step.genRefined q :: rest =>
    run_steps env (generate_interface_with_refined_prompt env st q).2 rest

/-- Observe the nested payload of a "system overview" history entry
against a given registry: the Python payload is a dict from the names
captured at append time to the live machine dictionaries, so what a
reader sees for each name is the current field values of that machine (the
status suffices to witness change).  Non-overview entries observe to
`none`. -/
def observedOverviewStatuses (ms : List (String × Machine)) :
    HistoryEntry → Option (List (String × Option String))
  | HistoryEntry.op r =>
    match r.data with
    | some (OpData.overview names) =>
      some (names.map (fun n => (n, (assocLookup ms n).map Machine.status)))
    | _ => none
  | HistoryEntry.checkStatus _ _ _ => none

/-- Outcome of one `client.exec_command` transport call: captured streams
plus the process exit code (which the Python code never reads), or an
exception. -/
inductive PExecOutcome where
  | ok (stdout stderr : String) (exitCode : Int)
  | exn (msg : String)
deriving DecidableEq

/-- The external world of the POC `NetworkController`: an SSH connect
attempt per address, and command execution on the session of a named
machine. -/
structure PocEnv where
  connect : String → Except String Unit
  exec : String → String → PExecOutcome

/-- One entry of `NetworkController.machines`. -/
structure PocMachine where
  ip : String
  username : String
  password : Option String
  keyFile : Option String
  status : String
  info : List (String × String)
deriving DecidableEq

/-- The mutable state of a `NetworkController`: the inventory and the set
of machine names holding a live session (`ssh_connections`). -/
structure PocState where
  machines : List (String × PocMachine)
  connections : List String
deriving DecidableEq

/-- A freshly constructed `NetworkController`. -/
def pocInit : PocState := { machines := [], connections := [] }

/-- Models `NetworkController.add_machine` (lines 24-34): inventory entry with
status `"disconnected"` and an empty info snapshot. -/
def add_machine (st : PocState) (name ip username : String)
    (password keyFile : Option String) : PocState :=
  let m : PocMachine :=
    { ip := ip, username := username, password := password,
      keyFile := keyFile, status := "disconnected", info := [] }
  { st with machines := assocSet st.machines name m }

/-- Result of `connect_to_machine`: the uncaught `ValueError` for a name
outside the inventory, or the boolean of the Python function. -/
inductive ConnectOutcome where
  | raised (msg : String)
  | connected
  | failed
deriving DecidableEq

/-- Models `NetworkController.connect_to_machine` (lines 44-75): raise
`ValueError` for an unknown name; otherwise attempt one SSH connection,
setting status `"connected"` and registering the session on success, or
status `"error: <detail>"` on failure. -/
def connect_to_machine (env : PocEnv) (st : PocState) (name : String) :
    ConnectOutcome × PocState :=
  match assocLookup st.machines name with
  | none => (ConnectOutcome.raised ("Machine " ++ name ++ " not in inventory"), st)
  | some m =>
    match env.connect m.ip with
    | Except.ok _ =>
      let m1 := { m with status := "connected" }
      (ConnectOutcome.connected,
       { st with machines := assocSet st.machines name m1,
                 connections :=
                   if st.connections.contains name then st.connections
                   else st.connections ++ [name] })
    | Except.error e =>
      let m1 := { m with status := "error: " ++ e }
      (ConnectOutcome.failed,
       { st with machines := assocSet st.machines name m1 })

/-- Result of `execute_command`: a propagated `ValueError` (unknown
machine), the `{"error": ...}` dictionary, or the full
`{stdout, stderr, success}` dictionary. -/
inductive ExecResult where
  | raised (msg : String)
  | errorResult (msg : String)
  | result (stdout stderr : String) (success : Bool)
deriving DecidableEq

/-- Models `NetworkController.execute_command` (lines 77-96): ensure a session
exists (connecting lazily; the `ValueError` of `connect_to_machine`
propagates), then run the command; `success` is `not error`, i.e. true
iff the captured standard error is empty — the exit code of the remote
command is never consulted. -/
def execute_command (env : PocEnv) (st : PocState) (name command : String) :
    ExecResult × PocState :=
  let conn : ConnectOutcome × PocState :=
    if st.connections.contains name then (ConnectOutcome.connected, st)
    else connect_to_machine env st name
  match conn.1 with
  | ConnectOutcome.raised msg => (ExecResult.raised msg, conn.2)
  | ConnectOutcome.failed =>
    (ExecResult.errorResult ("Cannot connect to " ++ name), conn.2)
  | ConnectOutcome.connected =>
    match env.exec name command with
    | PExecOutcome.ok out err _ => (ExecResult.result out err (err == ""), conn.2)
    | PExecOutcome.exn e => (ExecResult.errorResult e, conn.2)

/-- The fixed ordered diagnostic command table of `get_system_info`. -/
def sysInfoCommands : List (String × String) :=
  [("hostname", "hostname"),
   ("cpu_info", "lscpu | grep \x27Model name\x27 | cut -d: -f2 | sed \x27s/^ *//\x27"),
   ("memory", "free -h | grep Mem | awk \x27\x7bprint $2\x7d\x27"),
   ("disk", "df -h / | awk \x27NR==2 \x7bprint $2\x7d\x27"),
   ("uptime", "uptime -p"),
   ("load", "uptime | awk -F\x27load average:\x27 \x27\x7b print $2 \x7d\x27"),
   ("processes", "ps aux | wc -l"),
   ("distro", "cat /etc/os-release | grep PRETTY_NAME | cut -d= -f2 | tr -d \x27\"\x27")]

/-- The command loop of `get_system_info`: run each diagnostic command,
keeping `stdout.strip()` for every call that returned a full result
dictionary (partial results are expected); a propagated `ValueError`
aborts the whole collection. -/
def sys_info_go (env : PocEnv) (name : String) :
    PocState → List (String × String) →
    Option (List (String × String)) × PocState
  | st, [] => (some [], st)
  | st, (key, cmd) :: rest =>
    match execute_command env st name cmd with
    | (ExecResult.raised _, st1) => (none, st1)
    | (ExecResult.errorResult _, st1) => sys_info_go env name st1 rest
    | (ExecResult.result out _ _, st1) =>
      match sys_info_go env name st1 rest with
      | (some tail, st2) => (some ((key, out.trim) :: tail), st2)
      | (none, st2) => (none, st2)

/-- Models `NetworkController.get_system_info` (lines 98-118): collect the fixed
diagnostics and store the mapping on the `info` field of the machine.  `none`
models the propagated `ValueError` for an unknown machine name. -/
def get_system_info (env : PocEnv) (st : PocState) (name : String) :
    Option (List (String × String)) × PocState :=
  match sys_info_go env name st sysInfoCommands with
  | (none, st1) => (none, st1)
  | (some results, st1) =>
    match assocLookup st1.machines name with
    | some m =>
      let m1 := { m with info := results }
      (some results,
       { st1 with machines := assocSet st1.machines name m1 })
    | none => (none, st1)

/-- One public call on a `NetworkController`. -/
inductive PocStep where
  | add (name ip username : String) (password keyFile : Option String)
  | connect (name : String)
  | exec (name command : String)
  | sysinfo (name : String)

/-- Run a sequence of public POC calls. -/
def poc_run_steps (env : PocEnv) : PocState → List PocStep → PocState
  | st, [] => st
  | st, PocStep.add n ip u pw kf :: rest =>
    poc_run_steps env (add_machine st n ip u pw kf) rest
  | st, PocStep.connect n :: rest =>
    poc_run_steps env (connect_to_machine env st n).2 rest
  | st, PocStep.exec n c :: rest =>
    poc_run_steps env (execute_command env st n c).2 rest
  | st, PocStep.sysinfo n :: rest =>
    poc_run_steps env (get_system_info env st n).2 rest

/-- Classification of a probe outcome that `ping_machine` reports as a
failure: a nonzero return code, a timeout, or an exception. -/
def probeFails : SubprocOutcome → Bool
  | SubprocOutcome.completed rc _ _ => rc != 0
  | SubprocOutcome.timedOut => true
  | SubprocOutcome.raised _ => true

/-- The statuses `GeminiNetworkOS` machine records can carry. -/
def gStatusOk (s : String) : Bool :=
  s == "unknown" || s == "online" || s == "offline"

/-- The statuses POC `NetworkController` machine records can carry. -/
def pStatusOk (s : String) : Bool :=
  s == "disconnected" || s == "connected" || ("error: ".data).isPrefixOf s.data

/-- The status set named by the specification for machine records. -/
def specStatusOk (s : String) : Bool :=
  s == "unknown" || s == "online" || s == "offline" || s == "connected"
    || ("error:".data).isPrefixOf s.data

lemma ping_machine_fail_of_probeFails (env : Env) (c : Nat) (ip : String)
    (h : probeFails (env.probe c ip pingTimeoutSeconds) = true) :
    (ping_machine env c ip).success = false := by
  unfold ping_machine
  unfold probeFails at h
  split <;> simp_all [bne]

lemma ping_machine_error_on_failure (env : Env) (c : Nat) (ip : String)
    (h : (ping_machine env c ip).success = false) :
    ((ping_machine env c ip).error).isSome = true := by
  unfold ping_machine at h ⊢
  split <;> simp_all [bne]

lemma check_machines_go_entries_length (env : Env) :
    ∀ (ms : List (String × Machine)) (c : Nat),
      ((check_machines_go env c ms).2.1).length = ms.length := by
  intro ms
  induction ms with
  | nil => intro c; simp [check_machines_go]
  | cons hd tl ih =>
    intro c
    obtain ⟨name, m⟩ := hd
    simp only [check_machines_go]
    split <;> simp [ih]

lemma check_machines_go_names (env : Env) :
    ∀ (ms : List (String × Machine)) (c : Nat),
      (check_machines_go env c ms).1.map Prod.fst = ms.map Prod.fst := by
  intro ms
  induction ms with
  | nil => intro c; simp [check_machines_go]
  | cons hd tl ih =>
    intro c
    obtain ⟨name, m⟩ := hd
    simp only [check_machines_go]
    split <;> simp [ih]

lemma check_machines_go_status_ok (env : Env) :
    ∀ (ms : List (String × Machine)) (c : Nat),
      ((check_machines_go env c ms).1).all (fun p => gStatusOk p.2.status) = true := by
  intro ms
  induction ms with
  | nil => intro c; simp [check_machines_go]
  | cons hd tl ih =>
    intro c
    obtain ⟨name, m⟩ := hd
    simp only [check_machines_go]
    split
    case isTrue h =>
      simp only [List.all_cons, ih, Bool.and_true]
      split <;> simp [gStatusOk, h]
    case isFalse h =>
      simp only [List.all_cons, ih, Bool.and_true]
      simp [gStatusOk, h]

lemma check_machines_go_offline (env : Env) (n : String) (m : Machine)
    (hf : ∀ t, probeFails (env.probe t m.ip pingTimeoutSeconds) = true) :
    ∀ (ms : List (String × Machine)) (c : Nat),
      assocLookup ms n = some m →
      ∃ m', assocLookup (check_machines_go env c ms).1 n = some m' ∧
        m'.status = "offline" := by
  intro ms
  induction ms with
  | nil => intro c h; simp [assocLookup] at h
  | cons hd tl ih =>
    intro c h
    obtain ⟨name, m0⟩ := hd
    by_cases hn : name = n
    · subst hn
      simp only [assocLookup, if_pos] at h
      obtain rfl : m0 = m := by simpa using h
      have hfail : (ping_machine env c m0.ip).success = false :=
        ping_machine_fail_of_probeFails env c m0.ip (hf c)
      simp only [check_machines_go, hfail]
      simp [assocLookup]
    · simp only [assocLookup, if_neg hn] at h
      simp only [check_machines_go]
      split
      next hs =>
        obtain ⟨m', hm', hst⟩ := ih (c + 1 + 1 + 1) h
        exact ⟨m', by simp [assocLookup, hn, hm'], hst⟩
      next hs =>
        obtain ⟨m', hm', hst⟩ := ih (c + 1) h
        exact ⟨m', by simp [assocLookup, hn, hm'], hst⟩

lemma execute_operation_ops (env : Env) (st : OSState)
    (operation : String) (target : Option String) :
    (execute_operation env st operation target).2.operationsHistory =
      st.operationsHistory ++ (execute_operation_core env st operation target).extraEntries
        ++ [HistoryEntry.op (execute_operation_core env st operation target).record] := rfl

lemma execute_operation_prompt (env : Env) (st : OSState)
    (operation : String) (target : Option String) :
    (execute_operation env st operation target).2.promptHistory = st.promptHistory := rfl

lemma execute_operation_conv (env : Env) (st : OSState)
    (operation : String) (target : Option String) :
    (execute_operation env st operation target).2.conversationHistory =
      st.conversationHistory := rfl

lemma execute_operation_record (env : Env) (st : OSState)
    (operation : String) (target : Option String) :
    (execute_operation env st operation target).1 =
      (execute_operation_core env st operation target).record := rfl

lemma execute_operation_machines (env : Env) (st : OSState)
    (operation : String) (target : Option String) :
    (execute_operation env st operation target).2.machines =
      (execute_operation_core env st operation target).machines := rfl

lemma execute_operation_core_simple (env : Env) (st : OSState)
    (operation : String) (target : Option String)
    (h1 : operation ≠ "system overview") (h2 : operation ≠ "network topology") :
    (execute_operation_core env st operation target).extraEntries = [] ∧
      (execute_operation_core env st operation target).machines = st.machines := by
  unfold execute_operation_core
  repeat' split
  all_goals simp_all

lemma execute_operation_core_probe (env : Env) (st : OSState)
    (operation : String) (target : Option String)
    (hop : operation = "system overview" ∨ operation = "network topology") :
    (execute_operation_core env st operation target).extraEntries =
        (check_machines_go env st.clock st.machines).2.1 ∧
      (execute_operation_core env st operation target).machines =
        (check_machines_go env st.clock st.machines).1 := by
  unfold execute_operation_core
  rcases hop with h | h <;> subst h <;> refine ⟨?_, ?_⟩ <;> (repeat' split) <;>
    (try rcases hhs : assocLookup (check_machines_go env st.clock st.machines).1 "headless-server" with _ | hs) <;>
    (try rcases hlp : assocLookup (check_machines_go env st.clock st.machines).1 "laptop" with _ | lp) <;>
    simp_all

lemma execute_operation_core_record_op (env : Env) (st : OSState)
    (operation : String) (target : Option String) :
    ((execute_operation_core env st operation target).record).operation = operation ∧
      ((execute_operation_core env st operation target).record).target = target := by
  unfold execute_operation_core
  refine ⟨?_, ?_⟩ <;> (repeat' split) <;>
    (try rcases hhs : assocLookup (check_machines_go env st.clock st.machines).1 "headless-server" with _ | hs) <;>
    (try rcases hlp : assocLookup (check_machines_go env st.clock st.machines).1 "laptop" with _ | lp) <;>
    simp_all [notFoundRecord]

lemma execute_operation_core_error_on_failure (env : Env) (st : OSState)
    (operation : String) (target : Option String)
    (h : ((execute_operation_core env st operation target).record).success = false) :
    (((execute_operation_core env st operation target).record).error).isSome = true := by
  revert h
  unfold execute_operation_core
  (repeat' split) <;>
    (try rcases hhs : assocLookup (check_machines_go env st.clock st.machines).1 "headless-server" with _ | hs) <;>
    (try rcases hlp : assocLookup (check_machines_go env st.clock st.machines).1 "laptop" with _ | lp) <;>
    intro h <;>
    simp_all [notFoundRecord] <;>
    exact ping_machine_error_on_failure _ _ _ h

/-- The (operation, target) view of a history entry, matching how the
formatted history names entries. -/
def entryView : HistoryEntry → String × Option String
  | HistoryEntry.op r => (r.operation, r.target)
  | HistoryEntry.checkStatus t _ _ => ("check_status", some t)

lemma check_machines_go_views (env : Env) :
    ∀ (ms : List (String × Machine)) (c : Nat),
      ((check_machines_go env c ms).2.1).map entryView =
        ms.map (fun p => ("check_status", some p.1)) := by
  intro ms
  induction ms with
  | nil => intro c; simp [check_machines_go]
  | cons hd tl ih =>
    intro c
    obtain ⟨name, m⟩ := hd
    simp only [check_machines_go]
    split <;> simp [entryView, ih]

lemma check_all_machines_ops (env : Env) (st : OSState) :
    (check_all_machines env st).operationsHistory =
      st.operationsHistory ++ (check_machines_go env st.clock st.machines).2.1 := rfl

lemma check_all_machines_prompt (env : Env) (st : OSState) :
    (check_all_machines env st).promptHistory = st.promptHistory := rfl

lemma check_all_machines_machines (env : Env) (st : OSState) :
    (check_all_machines env st).machines =
      (check_machines_go env st.clock st.machines).1 := rfl

lemma execute_operation_views_simple (env : Env) (st : OSState)
    (operation : String) (target : Option String)
    (h1 : operation ≠ "system overview") (h2 : operation ≠ "network topology") :
    (execute_operation env st operation target).2.operationsHistory.map entryView =
      st.operationsHistory.map entryView ++ [(operation, target)] := by
  have hs := execute_operation_core_simple env st operation target h1 h2
  have hr := execute_operation_core_record_op env st operation target
  rw [execute_operation_ops, hs.1]
  simp [entryView, hr.1, hr.2]

lemma execute_operation_views_probe (env : Env) (st : OSState)
    (operation : String) (target : Option String)
    (hop : operation = "system overview" ∨ operation = "network topology") :
    (execute_operation env st operation target).2.operationsHistory.map entryView =
      st.operationsHistory.map entryView
        ++ st.machines.map (fun p => ("check_status", some p.1))
        ++ [(operation, target)] := by
  have hs := execute_operation_core_probe env st operation target hop
  have hr := execute_operation_core_record_op env st operation target
  rw [execute_operation_ops, hs.1]
  simp [entryView, hr.1, hr.2, check_machines_go_views]

lemma dispatch_each_prompt (env : Env) (operation : String) :
    ∀ (names : List String) (st : OSState),
      (dispatch_each env operation st names).promptHistory = st.promptHistory := by
  intro names
  induction names with
  | nil => intro st; rfl
  | cons n rest ih =>
    intro st
    simp only [dispatch_each, ih, execute_operation_prompt]

lemma dispatch_each_views (env : Env) (operation : String)
    (h1 : operation ≠ "system overview") (h2 : operation ≠ "network topology") :
    ∀ (names : List String) (st : OSState),
      (dispatch_each env operation st names).operationsHistory.map entryView =
        st.operationsHistory.map entryView
          ++ names.map (fun n => (operation, some n)) := by
  intro names
  induction names with
  | nil => intro st; simp [dispatch_each]
  | cons n rest ih =>
    intro st
    simp only [dispatch_each]
    rw [ih, execute_operation_views_simple env st operation (some n) h1 h2]
    simp

lemma execute_operation_ops_grow (env : Env) (st : OSState)
    (operation : String) (target : Option String) :
    st.operationsHistory <+:
      (execute_operation env st operation target).2.operationsHistory := by
  rw [execute_operation_ops, List.append_assoc]
  exact List.prefix_append _ _

lemma dispatch_each_ops_grow (env : Env) (operation : String) :
    ∀ (names : List String) (st : OSState),
      st.operationsHistory <+:
        (dispatch_each env operation st names).operationsHistory := by
  intro names
  induction names with
  | nil => intro st; exact List.prefix_rfl
  | cons n rest ih =>
    intro st
    exact List.IsPrefix.trans (execute_operation_ops_grow env st operation (some n))
      (ih _)

lemma dispatch_each_machines_simple (env : Env) (operation : String)
    (h1 : operation ≠ "system overview") (h2 : operation ≠ "network topology") :
    ∀ (names : List String) (st : OSState),
      (dispatch_each env operation st names).machines = st.machines := by
  intro names
  induction names with
  | nil => intro st; rfl
  | cons n rest ih =>
    intro st
    simp only [dispatch_each, ih, execute_operation_machines,
      (execute_operation_core_simple env st operation (some n) h1 h2).2]

lemma process_user_query_prompt (env : Env) (st : OSState) (q : String) :
    (process_user_query env st q).promptHistory = st.promptHistory := by
  simp only [process_user_query]
  repeat' split
  all_goals simp [dispatch_each_prompt, execute_operation_prompt]

lemma process_user_query_ops_grow (env : Env) (st : OSState) (q : String) :
    st.operationsHistory <+: (process_user_query env st q).operationsHistory := by
  simp only [process_user_query]
  repeat' split
  all_goals
    first
    | exact dispatch_each_ops_grow env _ _ st
    | exact execute_operation_ops_grow env st _ none
    | exact List.prefix_rfl

lemma refine_image_prompt_ops (env : Env) (st : OSState) (op : Option String)
    (path : String) (q : Option String) :
    (refine_image_prompt env st op path q).2.operationsHistory =
      st.operationsHistory := by
  unfold refine_image_prompt
  repeat' split
  all_goals rfl

lemma refine_image_prompt_machines (env : Env) (st : OSState) (op : Option String)
    (path : String) (q : Option String) :
    (refine_image_prompt env st op path q).2.machines = st.machines := by
  unfold refine_image_prompt
  repeat' split
  all_goals rfl

lemma refine_image_prompt_prompt (env : Env) (st : OSState) (op : Option String)
    (path : String) (q : Option String) :
    ∃ es, (refine_image_prompt env st op path q).2.promptHistory =
      st.promptHistory ++ es := by
  unfold refine_image_prompt
  repeat' split
  · exact ⟨[], by simp⟩
  · exact ⟨[], by simp⟩
  · exact ⟨_, rfl⟩

lemma gi_stage1_prompt (env : Env) (st : OSState) (q : Option String) :
    (gi_stage1 env st q).promptHistory = st.promptHistory := by
  simp only [gi_stage1]
  repeat' split
  all_goals simp [process_user_query_prompt]

lemma gi_stage1_ops_grow (env : Env) (st : OSState) (q : Option String) :
    st.operationsHistory <+: (gi_stage1 env st q).operationsHistory := by
  simp only [gi_stage1]
  repeat' split
  all_goals
    first
    | exact process_user_query_ops_grow env st _
    | exact List.prefix_rfl

lemma generate_interface_prompt (env : Env) (st : OSState) (q : Option String) :
    (generate_interface env st q).2.promptHistory =
      st.promptHistory ++ [gi_record env st q] := by
  simp only [generate_interface]
  repeat' split
  all_goals simp [check_all_machines_prompt, gi_stage1_prompt]

lemma generate_interface_ops_grow (env : Env) (st : OSState) (q : Option String) :
    st.operationsHistory <+: (generate_interface env st q).2.operationsHistory := by
  simp only [generate_interface]
  repeat' split
  all_goals
    simp only [check_all_machines_ops]
  all_goals
    exact List.IsPrefix.trans (gi_stage1_ops_grow env st q) (List.prefix_append _ _)

lemma with_refined_ops_grow (env : Env) (st : OSState) (q : Option String) :
    st.operationsHistory <+:
      (generate_interface_with_refined_prompt env st q).2.operationsHistory := by
  simp only [generate_interface_with_refined_prompt]
  repeat' split
  all_goals
    first
    | exact generate_interface_ops_grow env st q
    | (refine List.IsPrefix.trans (generate_interface_ops_grow env st q) ?_
       simp [refine_image_prompt_ops])

lemma with_refined_prompt_grow (env : Env) (st : OSState) (q : Option String) :
    st.promptHistory <+:
      (generate_interface_with_refined_prompt env st q).2.promptHistory := by
  have hgen : st.promptHistory <+: (generate_interface env st q).2.promptHistory := by
    rw [generate_interface_prompt]
    exact List.prefix_append _ _
  have hrf := refine_image_prompt_prompt env (generate_interface env st q).2
    (last_prompt (generate_interface env st q).2) (generate_interface env st q).1.2 q
  obtain ⟨es, hes⟩ := hrf
  simp only [generate_interface_with_refined_prompt]
  repeat' split
  all_goals
    first
    | exact hgen
    | (refine List.IsPrefix.trans hgen ?_
       rw [hes]
       exact List.prefix_append _ _)

def isSimpleDispatch : Step → Bool
  | Step.dispatch operation _ =>
    !(operation == "system overview") && !(operation == "network topology")
  | Step.genInterface _ => false
  | Step.genRefined _ => false

lemma run_steps_ops_grow (env : Env) :
    ∀ (steps : List Step) (st : OSState),
      st.operationsHistory <+: (run_steps env st steps).operationsHistory := by
  intro steps
  induction steps with
  | nil => intro st; exact List.prefix_rfl
  | cons s rest ih =>
    intro st
    cases s with
    | dispatch op t =>
      exact List.IsPrefix.trans (execute_operation_ops_grow env st op t) (ih _)
    | genInterface q =>
      exact List.IsPrefix.trans (generate_interface_ops_grow env st q) (ih _)
    | genRefined q =>
      exact List.IsPrefix.trans (with_refined_ops_grow env st q) (ih _)

lemma run_steps_prompt_grow (env : Env) :
    ∀ (steps : List Step) (st : OSState),
      st.promptHistory <+: (run_steps env st steps).promptHistory := by
  intro steps
  induction steps with
  | nil => intro st; exact List.prefix_rfl
  | cons s rest ih =>
    intro st
    cases s with
    | dispatch op t =>
      refine List.IsPrefix.trans ?_ (ih _)
      rw [execute_operation_prompt]
    | genInterface q =>
      refine List.IsPrefix.trans ?_ (ih _)
      rw [generate_interface_prompt]
      exact List.prefix_append _ _
    | genRefined q =>
      exact List.IsPrefix.trans (with_refined_prompt_grow env st q) (ih _)

lemma run_steps_simple_count (env : Env) :
    ∀ (steps : List Step) (st : OSState),
      steps.all isSimpleDispatch = true →
      (run_steps env st steps).operationsHistory.length =
          st.operationsHistory.length + steps.length ∧
        (run_steps env st steps).promptHistory = st.promptHistory := by
  intro steps
  induction steps with
  | nil => intro st _; simp [run_steps]
  | cons s rest ih =>
    intro st hall
    simp only [List.all_cons, Bool.and_eq_true] at hall
    cases s with
    | dispatch op t =>
      have hsimple : op ≠ "system overview" ∧ op ≠ "network topology" := by
        have := hall.1
        simp only [isSimpleDispatch, Bool.and_eq_true, Bool.not_eq_true',
          beq_eq_false_iff_ne] at this
        exact this
      have hcore := execute_operation_core_simple env st op t hsimple.1 hsimple.2
      have hlen : (execute_operation env st op t).2.operationsHistory.length =
          st.operationsHistory.length + 1 := by
        rw [execute_operation_ops, hcore.1]
        simp
      obtain ⟨ihlen, ihprompt⟩ := ih (execute_operation env st op t).2 hall.2
      refine ⟨?_, ?_⟩
      · simp only [run_steps, ihlen, hlen, List.length_cons]
        omega
      · simp only [run_steps, ihprompt, execute_operation_prompt]
    | genInterface q => simp [isSimpleDispatch] at hall
    | genRefined q => simp [isSimpleDispatch] at hall

/-- All registry statuses lie in the `GeminiNetworkOS` status set. -/
def statusOkG (st : OSState) : Bool :=
  st.machines.all (fun p => gStatusOk p.2.status)

lemma check_all_machines_statusOk (env : Env) (st : OSState) :
    statusOkG (check_all_machines env st) = true := by
  unfold statusOkG
  rw [check_all_machines_machines]
  exact check_machines_go_status_ok env st.machines st.clock

lemma execute_operation_statusOk (env : Env) (st : OSState)
    (operation : String) (target : Option String) (h : statusOkG st = true) :
    statusOkG (execute_operation env st operation target).2 = true := by
  by_cases hop : operation = "system overview" ∨ operation = "network topology"
  · have := (execute_operation_core_probe env st operation target hop).2
    unfold statusOkG
    rw [execute_operation_machines, this]
    exact check_machines_go_status_ok env st.machines st.clock
  · push_neg at hop
    have := (execute_operation_core_simple env st operation target hop.1 hop.2).2
    unfold statusOkG
    rw [execute_operation_machines, this]
    exact h

lemma dispatch_each_statusOk (env : Env) (operation : String) :
    ∀ (names : List String) (st : OSState), statusOkG st = true →
      statusOkG (dispatch_each env operation st names) = true := by
  intro names
  induction names with
  | nil => intro st h; exact h
  | cons n rest ih =>
    intro st h
    exact ih _ (execute_operation_statusOk env st operation (some n) h)

lemma process_user_query_statusOk (env : Env) (st : OSState) (q : String)
    (h : statusOkG st = true) :
    statusOkG (process_user_query env st q) = true := by
  simp only [process_user_query]
  repeat' split
  all_goals
    first
    | exact dispatch_each_statusOk env _ _ st h
    | exact execute_operation_statusOk env st _ none h
    | exact h

lemma gi_stage1_statusOk (env : Env) (st : OSState) (q : Option String)
    (h : statusOkG st = true) :
    statusOkG (gi_stage1 env st q) = true := by
  simp only [gi_stage1]
  repeat' split
  all_goals
    first
    | exact process_user_query_statusOk env st _ h
    | exact h

lemma generate_interface_statusOk (env : Env) (st : OSState) (q : Option String) :
    statusOkG (generate_interface env st q).2 = true := by
  simp only [generate_interface]
  repeat' split
  all_goals
    exact check_all_machines_statusOk env (gi_stage1 env st q)

lemma with_refined_statusOk (env : Env) (st : OSState) (q : Option String) :
    statusOkG (generate_interface_with_refined_prompt env st q).2 = true := by
  have hd := generate_interface_statusOk env st q
  have hrf : statusOkG (refine_image_prompt env (generate_interface env st q).2
      (last_prompt (generate_interface env st q).2)
      (generate_interface env st q).1.2 q).2 = true := by
    unfold statusOkG
    rw [refine_image_prompt_machines]
    exact hd
  simp only [generate_interface_with_refined_prompt]
  repeat' split
  all_goals
    first
    | exact hd
    | exact hrf

lemma run_steps_statusOk (env : Env) :
    ∀ (steps : List Step) (st : OSState), statusOkG st = true →
      statusOkG (run_steps env st steps) = true := by
  intro steps
  induction steps with
  | nil => intro st h; exact h
  | cons s rest ih =>
    intro st h
    cases s with
    | dispatch op t => exact ih _ (execute_operation_statusOk env st op t h)
    | genInterface q => exact ih _ (generate_interface_statusOk env st q)
    | genRefined q => exact ih _ (with_refined_statusOk env st q)

lemma assocLookup_set_self {α : Type} (k : String) (v : α) :
    ∀ l : List (String × α), assocLookup (assocSet l k v) k = some v := by
  intro l
  induction l with
  | nil => simp [assocSet, assocLookup]
  | cons hd tl ih =>
    obtain ⟨k₀, v₀⟩ := hd
    by_cases hk : k₀ = k
    · simp [assocSet, assocLookup, hk]
    · simp [assocSet, assocLookup, hk, ih]

lemma assocLookup_all {α : Type} (P : String × α → Bool) (k : String) :
    ∀ l : List (String × α), l.all P = true →
      ∀ v, assocLookup l k = some v → P (k, v) = true := by
  intro l
  induction l with
  | nil => intro _ v hv; simp [assocLookup] at hv
  | cons hd tl ih =>
    intro hall v hv
    obtain ⟨k₀, v₀⟩ := hd
    simp only [List.all_cons, Bool.and_eq_true] at hall
    by_cases hk : k₀ = k
    · subst hk
      simp only [assocLookup, if_pos] at hv
      obtain rfl : v₀ = v := by simpa using hv
      exact hall.1
    · simp only [assocLookup, if_neg hk] at hv
      exact ih hall.2 v hv

lemma assocSet_all {α : Type} (P : String × α → Bool) (k : String) (v : α)
    (hv : P (k, v) = true) :
    ∀ l : List (String × α), l.all P = true →
      (assocSet l k v).all P = true := by
  intro l
  induction l with
  | nil => intro _; simp [assocSet, hv]
  | cons hd tl ih =>
    intro hall
    obtain ⟨k₀, v₀⟩ := hd
    simp only [List.all_cons, Bool.and_eq_true] at hall
    by_cases hk : k₀ = k
    · simp [assocSet, hk, hv, hall.2]
    · simp [assocSet, hk, hv, hall.1, ih hall.2]

/-- All inventory statuses lie in the POC `NetworkController` status set. -/
def statusOkP (st : PocState) : Bool :=
  st.machines.all (fun p => pStatusOk p.2.status)

lemma add_machine_statusOk (st : PocState) (name ip username : String)
    (password keyFile : Option String) (h : statusOkP st = true) :
    statusOkP (add_machine st name ip username password keyFile) = true := by
  unfold statusOkP add_machine
  exact assocSet_all _ name _ (by simp [pStatusOk]) st.machines h

lemma pStatusOk_error (e : String) : pStatusOk ("error: " ++ e) = true := by
  unfold pStatusOk
  have : ("error: ".data).isPrefixOf (("error: " ++ e).data) = true := by
    rw [List.isPrefixOf_iff_prefix]
    exact String.data_append "error: " e ▸ List.prefix_append _ _
  simp [this]

lemma connect_to_machine_statusOk (env : PocEnv) (st : PocState) (name : String)
    (h : statusOkP st = true) :
    statusOkP (connect_to_machine env st name).2 = true := by
  unfold connect_to_machine
  split
  · exact h
  next m hm =>
    split
    next u hc =>
      exact assocSet_all _ name _ (by simp [pStatusOk]) st.machines h
    next e hc =>
      exact assocSet_all _ name _ (by simpa using pStatusOk_error e) st.machines h

lemma execute_command_statusOk (env : PocEnv) (st : PocState) (name command : String)
    (h : statusOkP st = true) :
    statusOkP (execute_command env st name command).2 = true := by
  have hconn := connect_to_machine_statusOk env st name h
  unfold execute_command
  repeat' split
  all_goals
    first
    | exact h
    | exact hconn
    | (rcases hc : (connect_to_machine env st name).1 with _ | _ | _ <;>
        simp only [hc] <;> simpa using hconn)

lemma sys_info_go_statusOk (env : PocEnv) (name : String) :
    ∀ (cmds : List (String × String)) (st : PocState), statusOkP st = true →
      statusOkP (sys_info_go env name st cmds).2 = true := by
  intro cmds
  induction cmds with
  | nil => intro st h; exact h
  | cons c rest ih =>
    intro st h
    obtain ⟨key, cmd⟩ := c
    have hstep : statusOkP (execute_command env st name cmd).2 = true :=
      execute_command_statusOk env st name cmd h
    simp only [sys_info_go]
    split
    next msg st1 heq =>
      rw [heq] at hstep
      exact hstep
    next msg st1 heq =>
      rw [heq] at hstep
      exact ih st1 hstep
    next out x y st1 heq =>
      rw [heq] at hstep
      have htail := ih st1 hstep
      split
      next tail st2 heq2 =>
        rw [heq2] at htail
        exact htail
      next st2 heq2 =>
        rw [heq2] at htail
        exact htail

lemma get_system_info_statusOk (env : PocEnv) (st : PocState) (name : String)
    (h : statusOkP st = true) :
    statusOkP (get_system_info env st name).2 = true := by
  have hgo := sys_info_go_statusOk env name sysInfoCommands st h
  unfold get_system_info
  split
  next st1 heq =>
    rw [heq] at hgo
    exact hgo
  next results st1 heq =>
    rw [heq] at hgo
    replace hgo : (st1.machines.all fun p => pStatusOk p.2.status) = true := by
      simpa [statusOkP] using hgo
    split
    next m hm =>
      have hp : pStatusOk m.status = true := by
        simpa using assocLookup_all (fun p => pStatusOk p.2.status) name st1.machines hgo m hm
      exact assocSet_all _ name _ (by simpa using hp) st1.machines hgo
    next => exact hgo

lemma poc_run_steps_statusOk (env : PocEnv) :
    ∀ (steps : List PocStep) (st : PocState), statusOkP st = true →
      statusOkP (poc_run_steps env st steps) = true := by
  intro steps
  induction steps with
  | nil => intro st h; exact h
  | cons s rest ih =>
    intro st h
    cases s with
    | add n ip u pw kf => exact ih _ (add_machine_statusOk st n ip u pw kf h)
    | connect n => exact ih _ (connect_to_machine_statusOk env st n h)
    | exec n c => exact ih _ (execute_command_statusOk env st n c h)
    | sysinfo n => exact ih _ (get_system_info_statusOk env st n h)

/-- A concrete environment whose probes always time out, whose SSH and
refinement collaborators always fail, and whose image generator always
produces the two-byte artifact `[7, 7]`. -/
def demoEnv : Env :=
  { now := fun t => "T" ++ toString t,
    probe := fun _ _ _ => SubprocOutcome.timedOut,
    portOpen := fun _ _ _ => false,
    sshInfo := fun _ _ => SSHInfoOutcome.exn "no ssh",
    systemInfo := { os := "linux", hostname := "ctrl", ip := "192.168.1.10",
                    python := "3.11", time := "t0" },
    imageGen := fun _ _ => ImageOutcome.image [7, 7],
    readImage := fun _ _ => Except.error "io error",
    textGen := fun _ _ => TextOutcome.exn "collaborator down",
    compareImages := fun _ _ _ => none }

/-- A registry machine with only its address varying. -/
def plainMachine (ip : String) : Machine :=
  { ip := ip, username := "u", password := "p", status := "unknown",
    services := [], os := "Ubuntu 22.04", description := "",
    lastChecked := none, openPorts := none, realInfo := none }

/-- The registry of the end-to-end scenario of the specification:
`{server: 10.0.0.1, laptop: 10.0.0.2}`, untouched histories. -/
def scenarioState : OSState :=
  { machines := [("server", plainMachine "10.0.0.1"),
                 ("laptop", plainMachine "10.0.0.2")],
    operationsHistory := [], promptHistory := [], conversationHistory := [],
    imgCount := 0, clock := 0 }

/-- C8: `ping_machine` is a total function of the single probe outcome
observed at the fixed two-second timeout: a timeout yields a failure
result carrying the explicit timeout error value, an exception raised by
the probe yields a failure result carrying its message, and a completed
probe yields success exactly for return code zero — no outcome escapes as
an exception. -/
theorem C8_ping_machine_timeout_contract (env : Env) (c : Nat) (ip : String) :
    pingTimeoutSeconds = 2 ∧
    (env.probe c ip pingTimeoutSeconds = SubprocOutcome.timedOut →
      ping_machine env c ip =
        { success := false, output := none, error := some "Timeout while pinging" }) ∧
    (∀ e, env.probe c ip pingTimeoutSeconds = SubprocOutcome.raised e →
      ping_machine env c ip = { success := false, output := none, error := some e }) ∧
    (∀ rc out err, env.probe c ip pingTimeoutSeconds = SubprocOutcome.completed rc out err →
      ping_machine env c ip =
        { success := rc == 0, output := some out,
          error := if rc != 0 then some err else none }) := by
  refine ⟨rfl, ?_, ?_, ?_⟩
  · intro h
    simp [ping_machine, h]
  · intro e h
    simp [ping_machine, h]
  · intro rc out err h
    simp [ping_machine, h]

/-- Witness for C8 at a concrete timed-out probe. -/
theorem C8_witness :
    pingTimeoutSeconds = 2 ∧
      ping_machine demoEnv 0 "10.0.0.9" =
        { success := false, output := none, error := some "Timeout while pinging" } :=
  ⟨(C8_ping_machine_timeout_contract demoEnv 0 "10.0.0.9").1,
   (C8_ping_machine_timeout_contract demoEnv 0 "10.0.0.9").2.1 rfl⟩

/-- C2: dispatching `"ping"` at a target absent from the registry returns
a record with `success = false` whose error names the unknown target, and
the operations history grows by exactly one entry. -/
theorem C2_ping_unknown_target (env : Env) (st : OSState) (t : String)
    (h : assocLookup st.machines t = none) :
    (execute_operation env st "ping" (some t)).1.success = false ∧
    (execute_operation env st "ping" (some t)).1.error =
      some ("Machine \x27" ++ t ++ "\x27 not found in inventory") ∧
    (∃ pre suf, "Machine \x27" ++ t ++ "\x27 not found in inventory" = pre ++ t ++ suf) ∧
    (execute_operation env st "ping" (some t)).2.operationsHistory.length =
      st.operationsHistory.length + 1 := by
  have hcore : execute_operation_core env st "ping" (some t) =
      { record := notFoundRecord "ping" (some t) (env.now st.clock),
        extraEntries := [], machines := st.machines, clock := st.clock } := by
    simp [execute_operation_core, h]
  refine ⟨?_, ?_, ⟨"Machine \x27", "\x27 not found in inventory", rfl⟩, ?_⟩
  · rw [execute_operation_record, hcore]
    simp [notFoundRecord]
  · rw [execute_operation_record, hcore]
    simp [notFoundRecord, pyStrOpt]
  · rw [execute_operation_ops, hcore]
    simp

/-- Witness for C2 at the initial registry and the absent target
`"ghost"`. -/
theorem C2_witness :
    (execute_operation demoEnv initState "ping" (some "ghost")).1.success = false ∧
    (execute_operation demoEnv initState "ping" (some "ghost")).1.error =
      some "Machine \x27ghost\x27 not found in inventory" ∧
    (execute_operation demoEnv initState "ping" (some "ghost")).2.operationsHistory.length =
      initState.operationsHistory.length + 1 := by
  have h := C2_ping_unknown_target demoEnv initState "ghost" (by decide)
  exact ⟨h.1, h.2.1, h.2.2.2⟩

/-- Counterexample for C1: a single `"system overview"` dispatch on the
initial two-machine registry grows the operations history by three
entries (one `check_status` probe entry per machine plus the dispatch
record), not by exactly one. -/
theorem C1_counterexample :
    (execute_operation demoEnv initState "system overview" none).2.operationsHistory.length = 3 ∧
    (execute_operation demoEnv initState "system overview" none).2.operationsHistory.length ≠
      initState.operationsHistory.length + 1 := by
  constructor <;> decide

/-- C1 (amended): `execute_operation` is total and returns its record as
data for every operation name and target.  An operation other than
`"system overview"` / `"network topology"` appends exactly the dispatch
record; those two append one `check_status` entry per registry machine
and then the dispatch record (1 + |registry| entries), the record last.
Whenever the returned record has `success = false` its `error` field is
populated. -/
theorem C1_dispatch_append_and_error_contract (env : Env) (st : OSState)
    (operation : String) (target : Option String) :
    (operation ≠ "system overview" ∧ operation ≠ "network topology" →
      (execute_operation env st operation target).2.operationsHistory =
        st.operationsHistory ++ [HistoryEntry.op (execute_operation env st operation target).1]) ∧
    (operation = "system overview" ∨ operation = "network topology" →
      (execute_operation env st operation target).2.operationsHistory.length =
          st.operationsHistory.length + st.machines.length + 1 ∧
        (execute_operation env st operation target).2.operationsHistory.getLast? =
          some (HistoryEntry.op (execute_operation env st operation target).1) ∧
        st.operationsHistory <+:
          (execute_operation env st operation target).2.operationsHistory) ∧
    ((execute_operation env st operation target).1.success = false →
      ((execute_operation env st operation target).1.error).isSome = true) := by
  refine ⟨?_, ?_, ?_⟩
  · intro h
    rw [execute_operation_ops, execute_operation_record,
      (execute_operation_core_simple env st operation target h.1 h.2).1]
    simp
  · intro h
    have hprobe := execute_operation_core_probe env st operation target h
    refine ⟨?_, ?_, execute_operation_ops_grow env st operation target⟩
    · rw [execute_operation_ops, hprobe.1]
      simp [check_machines_go_entries_length]
      omega
    · rw [execute_operation_ops, execute_operation_record]
      rw [List.getLast?_concat]
  · intro h
    rw [execute_operation_record] at h ⊢
    exact execute_operation_core_error_on_failure env st operation target h

/-- Witness for C1 at an unknown-operation dispatch: exactly one record
is appended and its error is populated. -/
theorem C1_witness :
    (execute_operation demoEnv initState "reboot" none).2.operationsHistory =
      initState.operationsHistory ++
        [HistoryEntry.op (execute_operation demoEnv initState "reboot" none).1] ∧
    ((execute_operation demoEnv initState "reboot" none).1.error).isSome = true := by
  have h := C1_dispatch_append_and_error_contract demoEnv initState "reboot" none
  exact ⟨h.1 ⟨by decide, by decide⟩, h.2.2 (by decide)⟩

lemma execute_operation_core_ping_known (env : Env) (st : OSState)
    (t : String) (m : Machine) (h : assocLookup st.machines t = some m) :
    execute_operation_core env st "ping" (some t) =
      { record := { operation := "ping", target := some t,
                    timestamp := env.now st.clock,
                    success := (ping_machine env st.clock m.ip).success,
                    data := ((ping_machine env st.clock m.ip).output).map OpData.text,
                    error := (ping_machine env st.clock m.ip).error },
        extraEntries := [], machines := st.machines, clock := st.clock + 1 } := by
  simp [execute_operation_core, h]

/-- Counterexample for C4: with the scenario registry
`{server: 10.0.0.1, laptop: 10.0.0.2}` and every probe timing out,
dispatching `"ping"` at `"server"` returns the failure record the claim
describes, but the registry entry for `server` still has status
`"unknown"` afterwards — `execute_operation` alone never writes machine
status, so the status is not `"offline"` as claimed. -/
theorem C4_counterexample :
    (execute_operation demoEnv scenarioState "ping" (some "server")).1.operation = "ping" ∧
    (execute_operation demoEnv scenarioState "ping" (some "server")).1.success = false ∧
    ((assocLookup (execute_operation demoEnv scenarioState "ping" (some "server")).2.machines
        "server").map Machine.status) = some "unknown" ∧
    ((assocLookup (execute_operation demoEnv scenarioState "ping" (some "server")).2.machines
        "server").map Machine.status) ≠ some "offline" := by
  refine ⟨?_, ?_, ?_, ?_⟩ <;> decide

/-- C4 (amended): with a registry entry `server` whose address every
liveness probe reports unreachable, `dispatch("ping", "server")` returns
a record `{operation: "ping", target: "server", success: false}`; the
status of the registry entry `server` becomes `"offline"` only once the probe cycle
(`check_all_machines`, which the interface pipeline runs after every
dispatch) has executed on the resulting state. -/
theorem C4_ping_unreachable_then_probe_cycle (env : Env) (st : OSState) (m : Machine)
    (hm : assocLookup st.machines "server" = some m)
    (hf : ∀ t, probeFails (env.probe t m.ip pingTimeoutSeconds) = true) :
    (execute_operation env st "ping" (some "server")).1.operation = "ping" ∧
    (execute_operation env st "ping" (some "server")).1.target = some "server" ∧
    (execute_operation env st "ping" (some "server")).1.success = false ∧
    ((assocLookup
        (check_all_machines env (execute_operation env st "ping" (some "server")).2).machines
        "server").map Machine.status) = some "offline" := by
  have hcore := execute_operation_core_ping_known env st "server" m hm
  refine ⟨?_, ?_, ?_, ?_⟩
  · rw [execute_operation_record, hcore]
  · rw [execute_operation_record, hcore]
  · rw [execute_operation_record, hcore]
    exact ping_machine_fail_of_probeFails env st.clock m.ip (hf st.clock)
  · have hmach : (execute_operation env st "ping" (some "server")).2.machines =
        st.machines := by
      rw [execute_operation_machines, hcore]
    rw [check_all_machines_machines, hmach]
    obtain ⟨m', hm', hst⟩ :=
      check_machines_go_offline env "server" m hf st.machines
        (execute_operation env st "ping" (some "server")).2.clock hm
    rw [hm']
    simp [hst]

/-- Witness for C4 at the concrete scenario registry with timing-out
probes. -/
theorem C4_witness :
    (execute_operation demoEnv scenarioState "ping" (some "server")).1.target =
        some "server" ∧
    ((assocLookup
        (check_all_machines demoEnv
          (execute_operation demoEnv scenarioState "ping" (some "server")).2).machines
        "server").map Machine.status) = some "offline" := by
  have h := C4_ping_unreachable_then_probe_cycle demoEnv scenarioState
    (plainMachine "10.0.0.1") (by decide) (fun t => rfl)
  exact ⟨h.2.1, h.2.2.2⟩

/-- C3: when the draft pass of the two-pass orchestrator succeeds with
non-empty artifact bytes `b` at path `p` and the refinement collaborator
call yields no truthy rewritten prompt (it raised, returned `None`, or
returned an empty string), `generate_interface_with_refined_prompt`
returns exactly `(b, p)` — the draft artifact, unchanged and
non-empty. -/
theorem C3_refinement_failure_keeps_draft (env : Env) (st : OSState)
    (q : Option String) (b : List Nat) (p : String)
    (h1 : (generate_interface env st q).1 = (some b, p))
    (h2 : b ≠ [])
    (h3 : truthyOptStr
        (refine_image_prompt env (generate_interface env st q).2
          (last_prompt (generate_interface env st q).2) p q).1 = false) :
    (generate_interface_with_refined_prompt env st q).1 = (some b, p) := by
  have hb : (generate_interface env st q).1.1 = some b := by rw [h1]
  have hp : (generate_interface env st q).1.2 = p := by rw [h1]
  have hbe : b.isEmpty = false := by
    cases b with
    | nil => simp at h2
    | cons x xs => rfl
  simp only [generate_interface_with_refined_prompt, hb, hbe, hp]
  simp [h3]

/-- Witness for C3: a concrete run in which the draft pass produces the
bytes `[7, 7]` and the refinement file read raises. -/
theorem C3_witness :
    (generate_interface_with_refined_prompt demoEnv initState none).1 =
      (some [7, 7], "network_os_0.png") :=
  C3_refinement_failure_keeps_draft demoEnv initState none [7, 7] "network_os_0.png"
    (by decide) (by decide) (by decide)

/-- An environment whose first two probes (ticks 0 and 1) fail and whose
later probes succeed, so the two registry machines go offline in a first
probe cycle and online in a second. -/
def shiftEnv : Env :=
  { now := fun t => "T" ++ toString t,
    probe := fun t _ _ =>
      if t < 2 then SubprocOutcome.completed 1 "" "unreachable"
      else SubprocOutcome.completed 0 "ok" "",
    portOpen := fun _ _ _ => false,
    sshInfo := fun _ _ => SSHInfoOutcome.exn "no ssh",
    systemInfo := { os := "linux", hostname := "ctrl", ip := "192.168.1.10",
                    python := "3.11", time := "t0" },
    imageGen := fun _ _ => ImageOutcome.noImage,
    readImage := fun _ _ => Except.error "io error",
    textGen := fun _ _ => TextOutcome.exn "collaborator down",
    compareImages := fun _ _ _ => none }

/-- State after one `"system overview"` dispatch under `shiftEnv`. -/
def c5FirstState : OSState :=
  (execute_operation shiftEnv initState "system overview" none).2

/-- State after a second `"system overview"` dispatch under `shiftEnv`. -/
def c5SecondState : OSState :=
  (execute_operation shiftEnv c5FirstState "system overview" none).2

/-- Counterexample for C5: two dispatches leave six history entries, not
two; and the nested result payload of the first `"system overview"`
record (history index 2) aliases the live machine dictionaries, so its
observed statuses change from `"offline"` at append time to `"online"`
after the second dispatch — the nested payload of a previously appended
record does differ from its value at the moment it was appended. -/
theorem C5_counterexample :
    c5SecondState.operationsHistory.length = 6 ∧
    c5SecondState.operationsHistory.length ≠ 2 ∧
    (c5SecondState.operationsHistory.get? 2).map
        (observedOverviewStatuses c5FirstState.machines) =
      some (some [("headless-server", some "offline"), ("laptop", some "offline")]) ∧
    (c5SecondState.operationsHistory.get? 2).map
        (observedOverviewStatuses c5SecondState.machines) =
      some (some [("headless-server", some "online"), ("laptop", some "online")]) ∧
    (c5SecondState.operationsHistory.get? 2).map
        (observedOverviewStatuses c5SecondState.machines) ≠
      (c5SecondState.operationsHistory.get? 2).map
        (observedOverviewStatuses c5FirstState.machines) := by
  refine ⟨?_, ?_, ?_, ?_, ?_⟩ <;> decide

/-- C5 (amended): over any sequence of public calls both histories are
append-only — the prior history is always a prefix of the later one, so
no entry is ever removed, reordered, or replaced as a sequence value —
and a run of N dispatches none of which is `"system overview"` or
`"network topology"` appends exactly N operation records and no prompt
record.  (The probe-cycle operations append 1 + |registry| entries each,
and the nested payload of an overview record aliases the live registry;
see the counterexample.) -/
theorem C5_history_append_only (env : Env) (st : OSState) (steps : List Step) :
    st.operationsHistory <+: (run_steps env st steps).operationsHistory ∧
    st.promptHistory <+: (run_steps env st steps).promptHistory ∧
    (steps.all isSimpleDispatch = true →
      (run_steps env st steps).operationsHistory.length =
          st.operationsHistory.length + steps.length ∧
        (run_steps env st steps).promptHistory = st.promptHistory) :=
  ⟨run_steps_ops_grow env steps st, run_steps_prompt_grow env steps st,
   run_steps_simple_count env steps st⟩

/-- Witness for C5 over a concrete two-dispatch run. -/
theorem C5_witness :
    (run_steps demoEnv initState
        [Step.dispatch "ping" (some "ghost"),
         Step.dispatch "port scan" (some "laptop")]).operationsHistory.length =
      initState.operationsHistory.length + 2 ∧
    (run_steps demoEnv initState
        [Step.dispatch "ping" (some "ghost"),
         Step.dispatch "port scan" (some "laptop")]).promptHistory =
      initState.promptHistory :=
  (C5_history_append_only demoEnv initState
      [Step.dispatch "ping" (some "ghost"),
       Step.dispatch "port scan" (some "laptop")]).2.2 (by decide)

lemma any_of_matched_nonempty (st : OSState) (ql : String)
    (h : matched_machines st ql ≠ []) :
    (st.machines.any fun p => strContains ql p.1) = true := by
  unfold matched_machines at h
  obtain ⟨n, hn⟩ := List.exists_mem_of_ne_nil _ h
  rw [List.mem_filter] at hn
  obtain ⟨p, hp, hpn⟩ := List.mem_map.mp hn.1
  rw [List.any_eq_true]
  exact ⟨p, hp, by rw [hpn]; exact hn.2⟩

/-- C6: a free-text query whose lowering contains the keyword `"ping"`
and matches exactly the two registry names `a` then `b` (in registry
order) makes the front-end dispatch `"ping"` once per matched machine:
exactly the two records `("ping", a)` then `("ping", b)` are appended, in
registry order. -/
theorem C6_ping_two_machines (env : Env) (st : OSState) (q a b : String)
    (hping : strContains (lowerString q) "ping" = true)
    (hmatch : matched_machines st (lowerString q) = [a, b]) :
    (process_user_query env st q).operationsHistory.map entryView =
      st.operationsHistory.map entryView ++ [("ping", some a), ("ping", some b)] := by
  have hne : matched_machines st (lowerString q) ≠ [] := by
    rw [hmatch]; simp
  have hany := any_of_matched_nonempty st (lowerString q) hne
  simp only [process_user_query]
  rw [if_pos (by simp [hping, hany])]
  rw [dispatch_each_views env "ping" (by decide) (by decide) _ st, hmatch]
  simp

/-- Witness for C6: the scenario registry `{server, laptop}` and the
query `"ping server and laptop"`. -/
theorem C6_witness :
    (process_user_query demoEnv scenarioState "ping server and laptop").operationsHistory.map
        entryView =
      scenarioState.operationsHistory.map entryView ++
        [("ping", some "server"), ("ping", some "laptop")] :=
  C6_ping_two_machines demoEnv scenarioState "ping server and laptop" "server" "laptop"
    (by decide) (by decide)

/-- The guard of a keyword category of the free-text front-end: the
keyword occurs in the lowered query and some registry machine name does
too. -/
def kwGuard (st : OSState) (ql kw : String) : Bool :=
  strContains ql kw && st.machines.any (fun p => strContains ql p.1)

/-- C10: the free-text front-end tests its keyword categories in the
fixed order ping, scan, disk, process, overview/status, topology,
connected by elif: whichever guard holds first fully determines the
appended history entries — later keywords in the same query trigger
nothing — and a query matching no guard appends nothing. -/
theorem C10_keyword_priority (env : Env) (st : OSState) (q : String) :
    (kwGuard st (lowerString q) "ping" = true →
      (process_user_query env st q).operationsHistory.map entryView =
        st.operationsHistory.map entryView ++
          (matched_machines st (lowerString q)).map (fun n => ("ping", some n))) ∧
    (kwGuard st (lowerString q) "ping" = false →
      kwGuard st (lowerString q) "scan" = true →
      (process_user_query env st q).operationsHistory.map entryView =
        st.operationsHistory.map entryView ++
          (matched_machines st (lowerString q)).map (fun n => ("port scan", some n))) ∧
    (kwGuard st (lowerString q) "ping" = false →
      kwGuard st (lowerString q) "scan" = false →
      kwGuard st (lowerString q) "disk" = true →
      (process_user_query env st q).operationsHistory.map entryView =
        st.operationsHistory.map entryView ++
          (matched_machines st (lowerString q)).map
            (fun n => ("check disk space", some n))) ∧
    (kwGuard st (lowerString q) "ping" = false →
      kwGuard st (lowerString q) "scan" = false →
      kwGuard st (lowerString q) "disk" = false →
      kwGuard st (lowerString q) "process" = true →
      (process_user_query env st q).operationsHistory.map entryView =
        st.operationsHistory.map entryView ++
          (matched_machines st (lowerString q)).map
            (fun n => ("list processes", some n))) ∧
    (kwGuard st (lowerString q) "ping" = false →
      kwGuard st (lowerString q) "scan" = false →
      kwGuard st (lowerString q) "disk" = false →
      kwGuard st (lowerString q) "process" = false →
      (strContains (lowerString q) "overview" || strContains (lowerString q) "status") = true →
      (process_user_query env st q).operationsHistory.map entryView =
        st.operationsHistory.map entryView ++
          st.machines.map (fun p => ("check_status", some p.1)) ++
          [("system overview", none)]) ∧
    (kwGuard st (lowerString q) "ping" = false →
      kwGuard st (lowerString q) "scan" = false →
      kwGuard st (lowerString q) "disk" = false →
      kwGuard st (lowerString q) "process" = false →
      (strContains (lowerString q) "overview" || strContains (lowerString q) "status") = false →
      (strContains (lowerString q) "topology" || strContains (lowerString q) "network map") = true →
      (process_user_query env st q).operationsHistory.map entryView =
        st.operationsHistory.map entryView ++
          st.machines.map (fun p => ("check_status", some p.1)) ++
          [("network topology", none)]) ∧
    (kwGuard st (lowerString q) "ping" = false →
      kwGuard st (lowerString q) "scan" = false →
      kwGuard st (lowerString q) "disk" = false →
      kwGuard st (lowerString q) "process" = false →
      (strContains (lowerString q) "overview" || strContains (lowerString q) "status") = false →
      (strContains (lowerString q) "topology" || strContains (lowerString q) "network map") = false →
      (process_user_query env st q).operationsHistory = st.operationsHistory) := by
  refine ⟨?_, ?_, ?_, ?_, ?_, ?_, ?_⟩
  · intro h1
    unfold kwGuard at h1
    simp only [process_user_query]
    rw [if_pos h1]
    rw [dispatch_each_views env "ping" (by decide) (by decide) _ st]
  · intro h1 h2
    unfold kwGuard at h1 h2
    simp only [process_user_query]
    rw [if_neg (by simp [h1]), if_pos h2]
    rw [dispatch_each_views env "port scan" (by decide) (by decide) _ st]
  · intro h1 h2 h3
    unfold kwGuard at h1 h2 h3
    simp only [process_user_query]
    rw [if_neg (by simp [h1]), if_neg (by simp [h2]), if_pos h3]
    rw [dispatch_each_views env "check disk space" (by decide) (by decide) _ st]
  · intro h1 h2 h3 h4
    unfold kwGuard at h1 h2 h3 h4
    simp only [process_user_query]
    rw [if_neg (by simp [h1]), if_neg (by simp [h2]), if_neg (by simp [h3]), if_pos h4]
    rw [dispatch_each_views env "list processes" (by decide) (by decide) _ st]
  · intro h1 h2 h3 h4 h5
    unfold kwGuard at h1 h2 h3 h4
    simp only [process_user_query]
    rw [if_neg (by simp [h1]), if_neg (by simp [h2]), if_neg (by simp [h3]),
      if_neg (by simp [h4]), if_pos h5]
    exact execute_operation_views_probe env st "system overview" none (Or.inl rfl)
  · intro h1 h2 h3 h4 h5 h6
    unfold kwGuard at h1 h2 h3 h4
    simp only [process_user_query]
    rw [if_neg (by simp [h1]), if_neg (by simp [h2]), if_neg (by simp [h3]),
      if_neg (by simp [h4]), if_neg (by simp [h5]), if_pos h6]
    exact execute_operation_views_probe env st "network topology" none (Or.inr rfl)
  · intro h1 h2 h3 h4 h5 h6
    unfold kwGuard at h1 h2 h3 h4
    simp only [process_user_query]
    rw [if_neg (by simp [h1]), if_neg (by simp [h2]), if_neg (by simp [h3]),
      if_neg (by simp [h4]), if_neg (by simp [h5]), if_neg (by simp [h6])]

/-- Witness for C10: the query `"ping the laptop disk"` contains both the
`"ping"` and `"disk"` keywords with a known machine name, yet only the
first category dispatches — one ping record for `laptop`, nothing for
disk. -/
theorem C10_witness :
    (process_user_query demoEnv initState "ping the laptop disk").operationsHistory.map
        entryView =
      initState.operationsHistory.map entryView ++ [("ping", some "laptop")] := by
  have h := (C10_keyword_priority demoEnv initState "ping the laptop disk").1 (by decide)
  rw [h]
  decide

/-- Whether an `execute_command` result is the full
`{stdout, stderr, success}` dictionary. -/
def isFullResult : ExecResult → Bool
  | ExecResult.result _ _ _ => true
  | _ => false

/-- Whether an `execute_command` result is a propagated exception. -/
def isRaisedResult : ExecResult → Bool
  | ExecResult.raised _ => true
  | _ => false

/-- The `success` flag of an `execute_command` result, false when the
result carries no such flag. -/
def execSuccess : ExecResult → Bool
  | ExecResult.result _ _ ok => ok
  | _ => false

/-- Whether the transport path of `execute_command` succeeds for a known
machine: a session exists or one connection attempt succeeds, and the
exec call itself returns streams rather than raising. -/
def transportOk (env : PocEnv) (st : PocState) (name command : String) : Bool :=
  match assocLookup st.machines name with
  | none => false
  | some m =>
    (st.connections.contains name ||
      (match env.connect m.ip with
       | Except.ok _ => true
       | Except.error _ => false)) &&
    (match env.exec name command with
     | PExecOutcome.ok _ _ _ => true
     | PExecOutcome.exn _ => false)

/-- Whether the captured standard error of the exec call is empty. -/
def capturedStderrEmpty (env : PocEnv) (name command : String) : Bool :=
  match env.exec name command with
  | PExecOutcome.ok _ err _ => err == ""
  | PExecOutcome.exn _ => false

/-- An SSH world that always connects and always returns empty standard
error with a nonzero exit code. -/
def pocDemoEnv : PocEnv :=
  { connect := fun _ => Except.ok (),
    exec := fun _ _ => PExecOutcome.ok "out" "" 7 }

/-- Counterexample for C7: on a machine name outside the inventory,
`execute_command` does not return a `{stdout, stderr, success}` result at
all — the `ValueError` of `connect_to_machine` propagates to the
caller. -/
theorem C7_counterexample :
    (execute_command pocDemoEnv pocInit "ghost" "ls").1 =
      ExecResult.raised "Machine ghost not in inventory" ∧
    isFullResult (execute_command pocDemoEnv pocInit "ghost" "ls").1 = false := by
  constructor <;> decide

/-- C7 (amended): for a machine name present in the inventory,
`execute_command` never raises; it returns the full
`{stdout, stderr, success}` dictionary exactly when the transport path
(session reuse or one connection attempt, then the exec call) does not
fail, and its `success` flag is true exactly when the transport path
succeeded and the captured standard error is empty — the remote exit
code, which the exec oracle also reports, never enters the result.
Names outside the inventory instead propagate a `ValueError`. -/
theorem C7_execute_command_success_rule (env : PocEnv) (st : PocState)
    (name command : String) (h : (assocLookup st.machines name).isSome = true) :
    isRaisedResult (execute_command env st name command).1 = false ∧
    isFullResult (execute_command env st name command).1 =
      transportOk env st name command ∧
    execSuccess (execute_command env st name command).1 =
      (transportOk env st name command && capturedStderrEmpty env name command) := by
  rcases hm : assocLookup st.machines name with _ | m
  · rw [hm] at h
    simp at h
  by_cases hc : name ∈ st.connections
  all_goals
    rcases hcon : env.connect m.ip with e | u <;>
      rcases hex : env.exec name command with ⟨out, err, code⟩ | e2 <;>
        simp [execute_command, connect_to_machine, transportOk, capturedStderrEmpty,
          isRaisedResult, isFullResult, execSuccess, hm, hc, hcon, hex]

/-- Witness for C7: a known machine, a fresh connection, empty captured
standard error and exit code 7 — the result still reports success. -/
theorem C7_witness :
    execSuccess (execute_command pocDemoEnv
        (add_machine pocInit "server" "10.0.0.1" "u" (some "p") none) "server" "ls").1 =
      (transportOk pocDemoEnv
          (add_machine pocInit "server" "10.0.0.1" "u" (some "p") none) "server" "ls" &&
        capturedStderrEmpty pocDemoEnv "server" "ls") :=
  (C7_execute_command_success_rule pocDemoEnv
    (add_machine pocInit "server" "10.0.0.1" "u" (some "p") none) "server" "ls"
    (by decide)).2.2

/-- Counterexample for C9: `add_machine` of the POC controller initializes
status to `"disconnected"`, which is neither `"unknown"` nor any member
of the claimed status set `unknown | online | offline | connected |
error:<detail>`. -/
theorem C9_counterexample :
    ((assocLookup (add_machine pocInit "m1" "10.0.0.5" "u" (some "p") none).machines
        "m1").map PocMachine.status) = some "disconnected" ∧
    "disconnected" ≠ "unknown" ∧
    specStatusOk "disconnected" = false := by
  refine ⟨?_, ?_, ?_⟩ <;> decide

/-- C9 (amended): in `GeminiNetworkOS` every machine of the initial
registry reads status `"unknown"` before any probe, and over any run the
statuses stay in `unknown | online | offline`; in the POC
`NetworkController`, a machine added to the inventory reads
`"disconnected"` before any connection attempt, and over any run the
statuses stay in `disconnected | connected | error: <detail>`. -/
theorem C9_status_domains :
    (initState.machines.all fun p => p.2.status == "unknown") = true ∧
    (∀ (env : Env) (steps : List Step),
      statusOkG (run_steps env initState steps) = true) ∧
    (∀ (st : PocState) (name ip username : String)
        (password keyFile : Option String),
      ((assocLookup (add_machine st name ip username password keyFile).machines
          name).map PocMachine.status) = some "disconnected") ∧
    (∀ (env : PocEnv) (steps : List PocStep),
      statusOkP (poc_run_steps env pocInit steps) = true) := by
  refine ⟨by decide, ?_, ?_, ?_⟩
  · intro env steps
    exact run_steps_statusOk env steps initState (by decide)
  · intro st name ip username password keyFile
    unfold add_machine
    rw [assocLookup_set_self]
    rfl
  · intro env steps
    exact poc_run_steps_statusOk env steps pocInit (by decide)
